import Mathlib

/-!
Verification of the windows `IoSourceState` facade of the mio backend
(src/sys/windows/mod.rs), as a shallow embedding.

The facade code (IoSourceState::new/do_io/register/reregister/deregister and
InternalState's Drop impl) is embedded directly.  The selector module it calls
into is not part of the sources here, so the outcomes of the selector's
`register`/`reregister` operations are supplied by an oracle environment
(`SelectorEnv`), and every method additionally returns the list of selector
calls it issued, so that call-count properties are statable.
-/

namespace MioWindows

/-- Error kinds relevant to the facade, mirroring io::ErrorKind values used in
the source; `other n` stands for any further OS-level error. -/
inductive ErrorKind where
  | wouldBlock
  | alreadyExists
  | notFound
  | other (code : Nat)
  deriving DecidableEq, Repr

/-- An io::Error value: its kind plus an opaque payload distinguishing
different errors of the same kind (so that "returned unmodified" is about the
whole error value, not just its kind). -/
structure IOError where
  kind : ErrorKind
  payload : Nat
  deriving DecidableEq, Repr

/-- The error built by `io::ErrorKind::X.into()` in the source: a bare error
of the given kind. -/
def IOError.ofKind (k : ErrorKind) : IOError := ⟨k, 0⟩

/-- Caller-chosen registration token (opaque integer-sized value). -/
abbrev Token := Nat

/-- Interest bitmask over readable/writable. -/
abbrev Interest := Nat

/-- Raw OS socket value. -/
abbrev RawSocket := Nat

/-- Modelled from the spec: `SockState` lives in the selector module, which is
not among the sources; spec section 4.2 gives its lifecycle tags. Only the
lifecycle tag is needed by the facade claims. -/
inductive SockLifecycle where
  | idle
  | polling
  | errored (code : Nat)
  | pendingDelete
  | deleted
  deriving DecidableEq, Repr

/-- Modelled from the spec: the shared per-handle state; the facade only
touches its lifecycle tag (through mark_delete). -/
structure SockState where
  lifecycle : SockLifecycle
  deriving DecidableEq, Repr

/-- Modelled from the spec: `SockState::mark_delete` is in the absent selector
module; spec section 4.2 specifies the deregistration transition it performs:
while `Polling` a completion is still owed, so the state becomes
`PendingDelete`; otherwise it becomes `Deleted` immediately. -/
def SockState.mark_delete (s : SockState) : SockState :=
  match s.lifecycle with
  | SockLifecycle.polling => ⟨SockLifecycle.pendingDelete⟩
  | _ => ⟨SockLifecycle.deleted⟩

/-- A SockState counts as marked for deletion when its lifecycle tag is one of
the two deletion tags of spec section 4.2. -/
def SockState.markedForDeletion (s : SockState) : Bool :=
  match s.lifecycle with
  | SockLifecycle.pendingDelete => true
  | SockLifecycle.deleted => true
  | _ => false

/-- The boxed registration record held by a registered IoSourceState:
selector reference (represented by an identifier), token, interests and the
shared SockState reference (represented by its value; the facade hands it to
the selector and mutates it only through mark_delete). -/
structure InternalState where
  selector : Nat
  token : Token
  interests : Interest
  sock_state : SockState
  deriving DecidableEq, Repr

/-- The Drop impl for InternalState: locks the shared SockState and calls
mark_delete on it; the function returns the SockState's new value. -/
def InternalState.drop (st : InternalState) : SockState :=
  st.sock_state.mark_delete

/-- Per-handle facade state: `inner` is None iff the source is not currently
registered. -/
structure IoSourceState where
  inner : Option InternalState
  deriving DecidableEq, Repr

/-- IoSourceState::new. -/
def IoSourceState.new : IoSourceState := ⟨none⟩

/-- One call into the selector, recording the operation and its arguments. -/
inductive SelectorCall where
  | register (socket : RawSocket) (token : Token) (interests : Interest)
  | reregister (sock : SockState) (token : Token) (interests : Interest)
  deriving DecidableEq, Repr

/-- Oracle for the selector module (absent from the sources): the outcome of
`selector().register` (which on success yields the InternalState the facade
stores) and of `selector().reregister`. -/
structure SelectorEnv where
  registerOutcome : RawSocket → Token → Interest → Except IOError InternalState
  reregisterOutcome : SockState → Token → Interest → Except IOError Unit

/-- Result of do_io: the operation's threaded state (capturing that the
operation ran exactly once), the io::Result returned to the caller, the
facade state after the call (do_io takes &self, modelled by returning it),
and the selector calls issued. -/
structure DoIoResult (σ α : Type) where
  opState : σ
  result : Except IOError α
  state : IoSourceState
  calls : List SelectorCall
  deriving Repr

/-- Result of register/reregister: facade state after the call, the returned
io::Result, and the selector calls issued. -/
structure RegResult where
  state : IoSourceState
  result : Except IOError Unit
  calls : List SelectorCall
  deriving Repr

/-- Result of deregister: facade state after the call, the returned
io::Result, and the new value of the shared SockState when it was mutated. -/
structure DeregResult where
  state : IoSourceState
  result : Except IOError Unit
  sockAfter : Option SockState
  deriving Repr

/-- IoSourceState::do_io.  The operation `f` is modelled with an explicit
threaded state σ so that "executed exactly once" is expressible: the source
runs `let result = f(io);` once, then, if the result is an error of kind
WouldBlock and the source is registered, issues one selector reregister with
the stored sock_state/token/interests, propagating a reregister failure via
the question-mark operator; otherwise the original result is returned. -/
def IoSourceState.do_io {σ α : Type} (env : SelectorEnv) (s : IoSourceState)
    (f : σ → σ × Except IOError α) (opSt : σ) : DoIoResult σ α :=
  let fr := f opSt
  match fr.2 with
  | Except.error e =>
      if e.kind = ErrorKind.wouldBlock then
        match s.inner with
        | none => ⟨fr.1, fr.2, s, []⟩
        | some st =>
            match env.reregisterOutcome st.sock_state st.token st.interests with
            | Except.ok _ =>
                ⟨fr.1, fr.2, s, [SelectorCall.reregister st.sock_state st.token st.interests]⟩
            | Except.error e2 =>
                ⟨fr.1, Except.error e2, s,
                  [SelectorCall.reregister st.sock_state st.token st.interests]⟩
      else ⟨fr.1, fr.2, s, []⟩
  | Except.ok _ => ⟨fr.1, fr.2, s, []⟩

/-- IoSourceState::register: AlreadyExists if inner is Some; otherwise ask the
selector to register and store the returned InternalState on success. -/
def IoSourceState.register (env : SelectorEnv) (s : IoSourceState)
    (socket : RawSocket) (token : Token) (interests : Interest) : RegResult :=
  if s.inner.isSome then
    ⟨s, Except.error (IOError.ofKind ErrorKind.alreadyExists), []⟩
  else
    match env.registerOutcome socket token interests with
    | Except.ok st =>
        ⟨⟨some st⟩, Except.ok (), [SelectorCall.register socket token interests]⟩
    | Except.error e =>
        ⟨s, Except.error e, [SelectorCall.register socket token interests]⟩

/-- IoSourceState::reregister: NotFound if inner is None; otherwise ask the
selector to reregister and update the stored token/interests on success. -/
def IoSourceState.reregister (env : SelectorEnv) (s : IoSourceState)
    (token : Token) (interests : Interest) : RegResult :=
  match s.inner with
  | some st =>
      match env.reregisterOutcome st.sock_state token interests with
      | Except.ok _ =>
          ⟨⟨some { st with token := token, interests := interests }⟩, Except.ok (),
            [SelectorCall.reregister st.sock_state token interests]⟩
      | Except.error e =>
          ⟨s, Except.error e, [SelectorCall.reregister st.sock_state token interests]⟩
  | none => ⟨s, Except.error (IOError.ofKind ErrorKind.notFound), []⟩

/-- IoSourceState::deregister: NotFound if inner is None; otherwise lock the
shared SockState, mark_delete it, and clear inner. -/
def IoSourceState.deregister (s : IoSourceState) : DeregResult :=
  match s.inner with
  | some st => ⟨⟨none⟩, Except.ok (), some st.sock_state.mark_delete⟩
  | none => ⟨s, Except.error (IOError.ofKind ErrorKind.notFound), none⟩

/-! Concrete fixtures used by witnesses and counterexamples. -/

/-- A SockState currently polling. -/
def sockA : SockState := ⟨SockLifecycle.polling⟩

/-- A concrete registration record. -/
def stA : InternalState := ⟨0, 7, 3, sockA⟩

/-- A concretely registered facade state. -/
def srcRegistered : IoSourceState := ⟨some stA⟩

/-- Environment in which both selector operations succeed. -/
def envOk : SelectorEnv :=
  ⟨fun _ t i => Except.ok ⟨0, t, i, ⟨SockLifecycle.polling⟩⟩, fun _ _ _ => Except.ok ()⟩

/-- Environment in which the selector reregister fails with an OS error. -/
def envReregFails : SelectorEnv :=
  ⟨fun _ t i => Except.ok ⟨0, t, i, ⟨SockLifecycle.polling⟩⟩,
    fun _ _ _ => Except.error ⟨ErrorKind.other 5, 0⟩⟩

/-- Environment in which the selector register fails with an OS error. -/
def envRegFails : SelectorEnv :=
  ⟨fun _ _ _ => Except.error ⟨ErrorKind.other 11, 4⟩, fun _ _ _ => Except.ok ()⟩

/-- An operation that increments its counter and reports WouldBlock. -/
def opWouldBlock : Nat → Nat × Except IOError Nat :=
  fun n => (n + 1, Except.error ⟨ErrorKind.wouldBlock, 9⟩)

/-- An operation that increments its counter and succeeds with 42. -/
def opSucceeds : Nat → Nat × Except IOError Nat :=
  fun n => (n + 1, Except.ok 42)

example : (IoSourceState.do_io envOk srcRegistered opWouldBlock 0).calls =
    [SelectorCall.reregister sockA 7 3] := by decide

example : (IoSourceState.do_io envReregFails srcRegistered opWouldBlock 0).result =
    Except.error ⟨ErrorKind.other 5, 0⟩ := rfl

example : (IoSourceState.do_io envOk IoSourceState.new opWouldBlock 0).calls = [] := by
  decide

/-! Equation lemmas for do_io, one per branch of the source. -/

theorem do_io_eq_of_ok {σ α : Type} (env : SelectorEnv) (s : IoSourceState)
    (f : σ → σ × Except IOError α) (opSt : σ) (a : α)
    (hfr : (f opSt).2 = Except.ok a) :
    IoSourceState.do_io env s f opSt = ⟨(f opSt).1, (f opSt).2, s, []⟩ := by
  unfold IoSourceState.do_io
  simp [hfr]

theorem do_io_eq_of_error_not_would_block {σ α : Type} (env : SelectorEnv)
    (s : IoSourceState) (f : σ → σ × Except IOError α) (opSt : σ) (e : IOError)
    (hfr : (f opSt).2 = Except.error e) (hk : e.kind ≠ ErrorKind.wouldBlock) :
    IoSourceState.do_io env s f opSt = ⟨(f opSt).1, (f opSt).2, s, []⟩ := by
  unfold IoSourceState.do_io
  simp [hfr, hk]

theorem do_io_eq_of_would_block_unregistered {σ α : Type} (env : SelectorEnv)
    (s : IoSourceState) (f : σ → σ × Except IOError α) (opSt : σ) (e : IOError)
    (hs : s.inner = none) (hfr : (f opSt).2 = Except.error e)
    (hk : e.kind = ErrorKind.wouldBlock) :
    IoSourceState.do_io env s f opSt = ⟨(f opSt).1, (f opSt).2, s, []⟩ := by
  unfold IoSourceState.do_io
  simp [hfr, hk, hs]

theorem do_io_eq_of_would_block_rereg_ok {σ α : Type} (env : SelectorEnv)
    (s : IoSourceState) (st : InternalState) (f : σ → σ × Except IOError α)
    (opSt : σ) (e : IOError) (hs : s.inner = some st)
    (hfr : (f opSt).2 = Except.error e) (hk : e.kind = ErrorKind.wouldBlock)
    (henv : env.reregisterOutcome st.sock_state st.token st.interests = Except.ok ()) :
    IoSourceState.do_io env s f opSt =
      ⟨(f opSt).1, (f opSt).2, s,
        [SelectorCall.reregister st.sock_state st.token st.interests]⟩ := by
  unfold IoSourceState.do_io
  simp [hfr, hk, hs, henv]

theorem do_io_eq_of_would_block_rereg_error {σ α : Type} (env : SelectorEnv)
    (s : IoSourceState) (st : InternalState) (f : σ → σ × Except IOError α)
    (opSt : σ) (e e2 : IOError) (hs : s.inner = some st)
    (hfr : (f opSt).2 = Except.error e) (hk : e.kind = ErrorKind.wouldBlock)
    (henv : env.reregisterOutcome st.sock_state st.token st.interests = Except.error e2) :
    IoSourceState.do_io env s f opSt =
      ⟨(f opSt).1, Except.error e2, s,
        [SelectorCall.reregister st.sock_state st.token st.interests]⟩ := by
  unfold IoSourceState.do_io
  simp [hfr, hk, hs, henv]

/-- C1, counterexample: the claim says the would-block result is returned
unmodified to the caller, but when the selector reregister issued by do_io
fails, the source propagates the reregister error instead (the
question-mark operator on the map_or expression).  Concretely: on a
registered source whose operation reports WouldBlock (payload 9), under a
selector whose reregister fails with an OS error, do_io returns that OS
error, which differs from the would-block result. -/
theorem C1_counterexample :
    (opWouldBlock 0).2 = Except.error ⟨ErrorKind.wouldBlock, 9⟩ ∧
    (IoSourceState.do_io envReregFails srcRegistered opWouldBlock 0).result =
      Except.error ⟨ErrorKind.other 5, 0⟩ ∧
    (⟨ErrorKind.other 5, 0⟩ : IOError) ≠ ⟨ErrorKind.wouldBlock, 9⟩ :=
  ⟨rfl, rfl, by decide⟩

/-- C1 (amended): for every registered IoSourceState and operation f, do_io
executes f exactly once; if the result of f is an error of kind WouldBlock,
do_io issues exactly one reregister call with the stored token and interests;
when that reregister succeeds, the would-block result is returned unmodified,
and when it fails, the reregister error is returned instead; any other result
of f (success or a different error) is returned unchanged and no reregister
is issued. -/
theorem C1_do_io_registered_would_block {σ α : Type} (env : SelectorEnv)
    (s : IoSourceState) (st : InternalState) (f : σ → σ × Except IOError α)
    (opSt : σ) (hs : s.inner = some st) :
    (IoSourceState.do_io env s f opSt).opState = (f opSt).1 ∧
    (∀ e : IOError, (f opSt).2 = Except.error e → e.kind = ErrorKind.wouldBlock →
      (IoSourceState.do_io env s f opSt).calls =
        [SelectorCall.reregister st.sock_state st.token st.interests] ∧
      (env.reregisterOutcome st.sock_state st.token st.interests = Except.ok () →
        (IoSourceState.do_io env s f opSt).result = Except.error e) ∧
      (∀ e2 : IOError,
        env.reregisterOutcome st.sock_state st.token st.interests = Except.error e2 →
        (IoSourceState.do_io env s f opSt).result = Except.error e2)) ∧
    (∀ e : IOError, (f opSt).2 = Except.error e → e.kind ≠ ErrorKind.wouldBlock →
      (IoSourceState.do_io env s f opSt).calls = [] ∧
      (IoSourceState.do_io env s f opSt).result = (f opSt).2) ∧
    (∀ a : α, (f opSt).2 = Except.ok a →
      (IoSourceState.do_io env s f opSt).calls = [] ∧
      (IoSourceState.do_io env s f opSt).result = (f opSt).2) := by
  refine ⟨?_, ?_, ?_, ?_⟩
  · rcases hfr : (f opSt).2 with e | a
    · by_cases hk : e.kind = ErrorKind.wouldBlock
      · rcases henv : env.reregisterOutcome st.sock_state st.token st.interests with e2 | u
        · rw [do_io_eq_of_would_block_rereg_error env s st f opSt e e2 hs hfr hk henv]
        · cases u
          rw [do_io_eq_of_would_block_rereg_ok env s st f opSt e hs hfr hk henv]
      · rw [do_io_eq_of_error_not_would_block env s f opSt e hfr hk]
    · rw [do_io_eq_of_ok env s f opSt a hfr]
  · intro e hfr hk
    rcases henv : env.reregisterOutcome st.sock_state st.token st.interests with e2 | u
    · rw [do_io_eq_of_would_block_rereg_error env s st f opSt e e2 hs hfr hk henv]
      refine ⟨rfl, ?_, ?_⟩
      · intro h
        simp at h
      · intro e3 h
        injection h with h2
        subst h2
        rfl
    · cases u
      rw [do_io_eq_of_would_block_rereg_ok env s st f opSt e hs hfr hk henv]
      refine ⟨rfl, fun _ => hfr, ?_⟩
      intro e3 h
      simp at h
  · intro e hfr hk
    rw [do_io_eq_of_error_not_would_block env s f opSt e hfr hk]
    exact ⟨rfl, rfl⟩
  · intro a hfr
    rw [do_io_eq_of_ok env s f opSt a hfr]
    exact ⟨rfl, rfl⟩

/-- Witness for C1: on a concretely registered source whose operation reports
WouldBlock, under a selector whose reregister succeeds, do_io runs the
operation once, issues exactly the one stored-token reregister call, and
returns the would-block result. -/
theorem C1_do_io_witness :
    (IoSourceState.do_io envOk srcRegistered opWouldBlock 0).opState = 1 ∧
    (IoSourceState.do_io envOk srcRegistered opWouldBlock 0).calls =
      [SelectorCall.reregister sockA 7 3] ∧
    (IoSourceState.do_io envOk srcRegistered opWouldBlock 0).result =
      Except.error ⟨ErrorKind.wouldBlock, 9⟩ := by
  have h := C1_do_io_registered_would_block envOk srcRegistered stA opWouldBlock 0 rfl
  refine ⟨h.1, ?_, ?_⟩
  · exact (h.2.1 ⟨ErrorKind.wouldBlock, 9⟩ rfl rfl).1
  · exact (h.2.1 ⟨ErrorKind.wouldBlock, 9⟩ rfl rfl).2.1 rfl

/-- C7: for every IoSourceState that was never registered (inner is None) and
every operation f, do_io issues no selector call at all — even when f returns
a WouldBlock error — and returns the original result of f as-is, having run f
exactly once. -/
theorem C7_do_io_unregistered {σ α : Type} (env : SelectorEnv) (s : IoSourceState)
    (f : σ → σ × Except IOError α) (opSt : σ) (hs : s.inner = none) :
    (IoSourceState.do_io env s f opSt).calls = [] ∧
    (IoSourceState.do_io env s f opSt).result = (f opSt).2 ∧
    (IoSourceState.do_io env s f opSt).opState = (f opSt).1 := by
  rcases hfr : (f opSt).2 with e | a
  · by_cases hk : e.kind = ErrorKind.wouldBlock
    · rw [do_io_eq_of_would_block_unregistered env s f opSt e hs hfr hk]
      exact ⟨rfl, hfr, rfl⟩
    · rw [do_io_eq_of_error_not_would_block env s f opSt e hfr hk]
      exact ⟨rfl, hfr, rfl⟩
  · rw [do_io_eq_of_ok env s f opSt a hfr]
    exact ⟨rfl, hfr, rfl⟩

/-- Witness for C7: on a never-registered source whose operation reports
WouldBlock, do_io makes no selector call and passes the result through. -/
theorem C7_do_io_unregistered_witness :
    (IoSourceState.do_io envOk IoSourceState.new opWouldBlock 0).calls = [] ∧
    (IoSourceState.do_io envOk IoSourceState.new opWouldBlock 0).result =
      (opWouldBlock 0).2 ∧
    (IoSourceState.do_io envOk IoSourceState.new opWouldBlock 0).opState =
      (opWouldBlock 0).1 :=
  C7_do_io_unregistered envOk IoSourceState.new opWouldBlock 0 rfl

/-- C9: do_io never changes the IoSourceState itself — whether inner is None
or Some, and every stored field (selector reference, token, interests,
SockState reference), is identical before and after the call, for every
outcome of the operation; do_io takes the state by shared reference and the
embedding returns it untouched in every branch. -/
theorem C9_do_io_frame {σ α : Type} (env : SelectorEnv) (s : IoSourceState)
    (f : σ → σ × Except IOError α) (opSt : σ) :
    (IoSourceState.do_io env s f opSt).state = s := by
  unfold IoSourceState.do_io
  rcases hfr : (f opSt).2 with e | a
  · by_cases hk : e.kind = ErrorKind.wouldBlock
    · rcases hs : s.inner with _ | st
      · simp [hfr, hk, hs]
      · rcases henv : env.reregisterOutcome st.sock_state st.token st.interests with e2 | u
        · simp [hfr, hk, hs, henv]
        · simp [hfr, hk, hs, henv]
    · simp [hfr, hk]
  · simp [hfr]

/-- C2: when register is called on an unregistered IoSourceState and the
underlying selector registration fails, register returns that failure
untouched and inner remains None, so no partial registration is observable
and a later register call is still possible. -/
theorem C2_register_failure_no_partial (env : SelectorEnv) (s : IoSourceState)
    (socket : RawSocket) (token : Token) (interests : Interest) (e : IOError)
    (hs : s.inner = none)
    (hfail : env.registerOutcome socket token interests = Except.error e) :
    (IoSourceState.register env s socket token interests).result = Except.error e ∧
    (IoSourceState.register env s socket token interests).state.inner = none := by
  unfold IoSourceState.register
  simp [hs, hfail]

/-- Witness for C2: a concrete failing selector registration returns the OS
error and leaves the fresh state unregistered. -/
theorem C2_register_failure_witness :
    (IoSourceState.register envRegFails IoSourceState.new 1 7 3).result =
      Except.error ⟨ErrorKind.other 11, 4⟩ ∧
    (IoSourceState.register envRegFails IoSourceState.new 1 7 3).state.inner = none :=
  C2_register_failure_no_partial envRegFails IoSourceState.new 1 7 3
    ⟨ErrorKind.other 11, 4⟩ rfl rfl

/-- C3: register on an already-registered IoSourceState (inner is Some) fails
with an error of kind AlreadyExists and keeps the existing registration
(inner still holds the same InternalState). -/
theorem C3_register_already_exists (env : SelectorEnv) (s : IoSourceState)
    (st : InternalState) (socket : RawSocket) (token : Token) (interests : Interest)
    (hs : s.inner = some st) :
    (IoSourceState.register env s socket token interests).result =
      Except.error (IOError.ofKind ErrorKind.alreadyExists) ∧
    (IoSourceState.register env s socket token interests).state.inner = some st := by
  unfold IoSourceState.register
  simp [hs]

/-- Witness for C3: registering a concretely registered source again fails
with AlreadyExists and preserves the stored record. -/
theorem C3_register_already_exists_witness :
    (IoSourceState.register envOk srcRegistered 1 9 1).result =
      Except.error (IOError.ofKind ErrorKind.alreadyExists) ∧
    (IoSourceState.register envOk srcRegistered 1 9 1).state.inner = some stA :=
  C3_register_already_exists envOk srcRegistered stA 1 9 1 rfl

/-- C4: both reregister and deregister on an IoSourceState that has never
been registered (inner is None) fail with an error of kind NotFound. -/
theorem C4_unregistered_not_found (env : SelectorEnv) (s : IoSourceState)
    (token : Token) (interests : Interest) (hs : s.inner = none) :
    (IoSourceState.reregister env s token interests).result =
      Except.error (IOError.ofKind ErrorKind.notFound) ∧
    s.deregister.result = Except.error (IOError.ofKind ErrorKind.notFound) := by
  unfold IoSourceState.reregister IoSourceState.deregister
  simp [hs]

/-- Witness for C4: on a fresh IoSourceState, reregister and deregister both
report NotFound. -/
theorem C4_unregistered_not_found_witness :
    (IoSourceState.reregister envOk IoSourceState.new 7 3).result =
      Except.error (IOError.ofKind ErrorKind.notFound) ∧
    IoSourceState.new.deregister.result =
      Except.error (IOError.ofKind ErrorKind.notFound) :=
  C4_unregistered_not_found envOk IoSourceState.new 7 3 rfl

/-- C5: deregister on a registered IoSourceState succeeds, applies
mark_delete to the underlying shared SockState (which is then marked for
deletion), and clears the local state so inner is None afterwards; together
with new(), inner is None before the first registration and None again after
deregistration. -/
theorem C5_deregister_clears_and_marks (s : IoSourceState) (st : InternalState)
    (hs : s.inner = some st) :
    IoSourceState.new.inner = none ∧
    s.deregister.result = Except.ok () ∧
    s.deregister.state.inner = none ∧
    s.deregister.sockAfter = some st.sock_state.mark_delete ∧
    st.sock_state.mark_delete.markedForDeletion = true := by
  refine ⟨rfl, ?_, ?_, ?_, ?_⟩
  · unfold IoSourceState.deregister
    simp [hs]
  · unfold IoSourceState.deregister
    simp [hs]
  · unfold IoSourceState.deregister
    simp [hs]
  · unfold SockState.mark_delete SockState.markedForDeletion
    rcases st.sock_state.lifecycle with _ | _ | c | _ | _ <;> rfl

/-- Witness for C5: deregistering the concrete registered source clears it
and marks its (polling) SockState as pending deletion. -/
theorem C5_deregister_witness :
    IoSourceState.new.inner = none ∧
    srcRegistered.deregister.result = Except.ok () ∧
    srcRegistered.deregister.state.inner = none ∧
    srcRegistered.deregister.sockAfter = some sockA.mark_delete ∧
    sockA.mark_delete.markedForDeletion = true :=
  C5_deregister_clears_and_marks srcRegistered stA rfl

/-- C6: dropping a registration's owning InternalState performs the same
transition on the underlying SockState as an explicit deregister: the
SockState value produced by deregister equals the one produced by the Drop
impl (both take the SockState lock and call mark_delete on it). -/
theorem C6_drop_equals_deregister (s : IoSourceState) (st : InternalState)
    (hs : s.inner = some st) :
    s.deregister.sockAfter = some st.drop := by
  unfold IoSourceState.deregister InternalState.drop
  simp [hs]

/-- Witness for C6: on the concrete registered source, deregister leaves the
SockState exactly as InternalState's Drop impl would. -/
theorem C6_drop_equals_deregister_witness :
    srcRegistered.deregister.sockAfter = some stA.drop :=
  C6_drop_equals_deregister srcRegistered stA rfl

/-- C8: reregister on a registered IoSourceState updates the stored token and
interests exactly when the underlying selector reregister succeeds; on a
selector failure the error is returned and the previously stored token and
interests are unchanged. -/
theorem C8_reregister_updates_iff_success (env : SelectorEnv) (s : IoSourceState)
    (st : InternalState) (token : Token) (interests : Interest)
    (hs : s.inner = some st) :
    (env.reregisterOutcome st.sock_state token interests = Except.ok () →
      (IoSourceState.reregister env s token interests).result = Except.ok () ∧
      (IoSourceState.reregister env s token interests).state.inner =
        some { st with token := token, interests := interests }) ∧
    (∀ e : IOError,
      env.reregisterOutcome st.sock_state token interests = Except.error e →
      (IoSourceState.reregister env s token interests).result = Except.error e ∧
      (IoSourceState.reregister env s token interests).state = s) := by
  constructor
  · intro henv
    unfold IoSourceState.reregister
    simp [hs, henv]
  · intro e henv
    unfold IoSourceState.reregister
    simp [hs, henv]

/-- Witness for C8: under the succeeding selector the stored token/interests
are replaced, and under the failing selector the state is untouched and the
error surfaced. -/
theorem C8_reregister_witness :
    ((IoSourceState.reregister envOk srcRegistered 9 1).result = Except.ok () ∧
      (IoSourceState.reregister envOk srcRegistered 9 1).state.inner =
        some ⟨0, 9, 1, sockA⟩) ∧
    ((IoSourceState.reregister envReregFails srcRegistered 9 1).result =
        Except.error ⟨ErrorKind.other 5, 0⟩ ∧
      (IoSourceState.reregister envReregFails srcRegistered 9 1).state =
        srcRegistered) :=
  ⟨(C8_reregister_updates_iff_success envOk srcRegistered stA 9 1 rfl).1 rfl,
    (C8_reregister_updates_iff_success envReregFails srcRegistered stA 9 1 rfl).2
      ⟨ErrorKind.other 5, 0⟩ rfl⟩

/-- C10: a register call on an already-registered IoSourceState has no side
effect at all: it does not invoke the selector (the call log is empty) and
leaves the state — with its token, interests and SockState — exactly as it
was, failing with AlreadyExists. -/
theorem C10_register_registered_no_side_effect (env : SelectorEnv)
    (s : IoSourceState) (st : InternalState) (socket : RawSocket)
    (token : Token) (interests : Interest) (hs : s.inner = some st) :
    (IoSourceState.register env s socket token interests).calls = [] ∧
    (IoSourceState.register env s socket token interests).state = s ∧
    (IoSourceState.register env s socket token interests).result =
      Except.error (IOError.ofKind ErrorKind.alreadyExists) := by
  unfold IoSourceState.register
  simp [hs]

/-- Witness for C10: re-registering the concrete registered source issues no
selector call and leaves the state untouched. -/
theorem C10_register_registered_witness :
    (IoSourceState.register envOk srcRegistered 1 9 1).calls = [] ∧
    (IoSourceState.register envOk srcRegistered 1 9 1).state = srcRegistered ∧
    (IoSourceState.register envOk srcRegistered 1 9 1).result =
      Except.error (IOError.ofKind ErrorKind.alreadyExists) :=
  C10_register_registered_no_side_effect envOk srcRegistered stA 1 9 1 rfl

end MioWindows
